import Mathlib

/-!
Verification of the routing/dispatch core of the FinancialAIAssistant
repository (`agents.py`), shallowly embedded in Lean 4.

Modelling conventions:
* A Python exception is a value of `PyErr`; a Python function that can
  raise is embedded as a Lean function into `Except PyErr _`.
* The LangGraph `AgentState` TypedDict is a structure; keys that the
  graph may leave unset are `Option`-valued, and a dict read
  `state[k]` on a possibly-missing key goes through `getKey`,
  which raises `PyErr.keyError` when the key is absent.
* The external collaborators (the Ollama chat model `llm`, the Vanna
  instance `vn`, the Perplexity web search endpoint) are an `Env` of
  opaque functions, each returning `Except PyErr _` so that any of
  them may raise.
* A pandas DataFrame is a list of rows; `vn.run_sql` may return
  `None`, hence `Option DataFrame` as its result payload.
* The compiled LangGraph graph is executed by `runFrom`, a fuel-based
  interpreter over the node table (`nodeFn`), the conditional edges of
  the router (`decide_next_node` composed with `routerPathMap`) and the
  static edges (`staticEdge`), exactly as registered on `builder`.
-/

deriving instance DecidableEq for Except

/-- Rows-of-cells model of a pandas DataFrame (`df.empty` is `rows = []`). -/
abbrev DataFrame := List (List String)

/-! Executable models of the Python `str` methods the code uses
(`strip`, `lower`, `upper`, `in`, truthiness, `any` over characters),
defined structurally over the character list so that concrete runs
reduce inside the kernel. -/

/-- Whitespace characters removed by Python `str.strip()`. -/
def isWS (c : Char) : Bool :=
  c.toNat = 32 || c.toNat = 9 || c.toNat = 10 || c.toNat = 11 || c.toNat = 12 || c.toNat = 13

/-- Python `s.strip()`. -/
def strStrip (s : String) : String :=
  String.mk (((s.data.dropWhile isWS).reverse.dropWhile isWS).reverse)

/-- ASCII lowering of one character. -/
def charLower (c : Char) : Char :=
  if 65 ≤ c.toNat && c.toNat ≤ 90 then Char.ofNat (c.toNat + 32) else c

/-- ASCII raising of one character. -/
def charUpper (c : Char) : Char :=
  if 97 ≤ c.toNat && c.toNat ≤ 122 then Char.ofNat (c.toNat - 32) else c

/-- Python `s.lower()`. -/
def strLower (s : String) : String := String.mk (s.data.map charLower)

/-- Python `s.upper()`. -/
def strUpper (s : String) : String := String.mk (s.data.map charUpper)

/-- Python string falsiness `not s`. -/
def strIsEmpty (s : String) : Bool := s.data.isEmpty

/-- Whether the first list is an initial segment of the second. -/
def leadsWith : List Char → List Char → Bool
  | [], _ => true
  | _ :: _, [] => false
  | a :: as, b :: bs => a == b && leadsWith as bs

/-- Whether `needle` occurs contiguously inside the second list. -/
def containsSeq (needle : List Char) : List Char → Bool
  | [] => leadsWith needle []
  | b :: bs => leadsWith needle (b :: bs) || containsSeq needle bs

/-- Python `a.any(...)` over the characters of a string. -/
def strAny (s : String) (p : Char → Bool) : Bool := s.data.any p

/-- Joining of strings with a separator, structurally. -/
def joinWith (sep : String) : List String → String
  | [] => ""
  | [x] => x
  | x :: y :: rest => x ++ sep ++ joinWith sep (y :: rest)

/-- One entry of the chat history passed by the UI. -/
structure Message where
  role : String
  content : String
deriving DecidableEq, Repr

/-- A Python exception value. The distinctions mirror the exception
classes that `agents.py` raises itself; collaborator failures may carry
any of these. -/
inductive PyErr where
  | keyError (k : String)
  | valueError (m : String)
  | connectionError (m : String)
  | external (m : String)
deriving DecidableEq, Repr

/-- The `AgentState` TypedDict of `agents.py`. `Option` marks keys that
are absent until some node writes them; the UI only supplies
`original_question` and `chat_history`. -/
structure AgentState where
  original_question : String
  processed_question : Option String
  is_arabic : Option Bool
  classification : Option String
  chat_history : List Message
  sql_query : Option String
  df_results : Option (Option DataFrame)
  final_answer : Option String
deriving DecidableEq, Repr

/-- Dict read `state[k]`: raises `KeyError` when the key was never set. -/
def getKey (k : String) : Option α → Except PyErr α
  | some a => Except.ok a
  | none => Except.error (PyErr.keyError k)

/-- The external collaborators of the routing core, as opaque fallible
functions: `llm.invoke(...).content`, the Vanna instance (`vn` truthiness,
`generate_sql`, `run_sql`, `generate_explanation`) and the Perplexity
request (`requests.post` + `raise_for_status` + JSON field access,
collapsed into one fallible call). -/
structure Env where
  llmInvoke : String → Except PyErr String
  vannaConnected : Bool
  generateSql : String → Except PyErr String
  runSql : String → Except PyErr (Option DataFrame)
  generateExplanation : String → String → String → Except PyErr String
  webSearch : String → Except PyErr String

/-- Python substring containment `needle in hay`. -/
def hasSubstr (needle hay : String) : Bool :=
  containsSeq needle.data hay.data

/-- Character test of `router_node`: `'؀' <= ch <= 'ۿ'`. -/
def isArabicChar (c : Char) : Bool :=
  0x600 ≤ c.toNat && c.toNat ≤ 0x6FF

/-- Prompt of the simplified translation call in `router_node`. -/
def translatePromptEn (question : String) : String :=
  "Translate the following financial query to professional English: \x27" ++ question ++ "\x27"

/-- The classification prompt of `router_node` (an opaque string as far
as the theorems are concerned). -/
def classificationPrompt (processed_question : String) : String :=
  "You are a query classifier. Your job is to assign a user\x27s financial query to ONE of the following categories:\n"
  ++ "    - portfolio: The user is asking about their personal portfolio, holdings, returns, P&L, or any data that would be in a database.\n"
  ++ "    - general: The user is asking a general financial question, about markets, stocks, or economic concepts that requires web search.\n"
  ++ "    - smalltalk: The user is engaging in casual conversation, greetings, or jokes.\n"
  ++ "    - identity: The user is asking about you, the AI assistant.\n"
  ++ "    - invalid: The query is offensive, gibberish, or completely out of context.\n\n"
  ++ "    Respond with ONLY the category name.\n"
  ++ "    User Query: \"" ++ processed_question ++ "\"\n"
  ++ "    Category:"

/-- Prompt of `smalltalk_agent_node`. -/
def smalltalkPrompt (question : String) : String :=
  "You are a friendly financial assistant. Provide a brief, conversational response to: \x27" ++ question ++ "\x27"

/-- Prompt of `final_translation_node`. -/
def translatePromptAr (answer : String) : String :=
  "Translate the following financial response to professional Arabic: \x27" ++ answer ++ "\x27"

/-- Apology of the `except` block of `portfolio_agent_node`. -/
def portfolioApology : String :=
  "I\x27m sorry, I had trouble accessing the portfolio data. The query might be too complex or the data may not be available."

/-- Fixed answer of `portfolio_agent_node` when the result set is empty. -/
def noDataMsg : String :=
  "I ran a query but found no data for your request."

/-- Apology of the `except` block of `internet_agent_node`. -/
def internetApology : String :=
  "Sorry, I couldn\x27t access my online information source right now."

/-- Fixed answer of `identity_agent_node`. -/
def identityMsg : String :=
  "I am a multi-agent AI financial assistant, designed to help you analyze portfolio data and research market insights using specialized agents."

/-- Fixed answer of `invalid_query_node`. -/
def invalidMsg : String :=
  "I can only answer questions related to finance and your portfolio. Please ask a relevant question."

/-- Model of `df.to_string()` fed to `generate_explanation` (opaque to
the theorems, fixed here as a plain rendering). -/
def dfToString (df : DataFrame) : String :=
  joinWith "\n" (df.map (joinWith " "))

/-- `router_node`: language detection, optional translation, then
classification; the LLM calls have no `try`, so their errors propagate. -/
def router_node (env : Env) (s : AgentState) : Except PyErr AgentState := do
  let question := s.original_question
  let isAr := strAny question isArabicChar
  let s1 := { s with is_arabic := some isAr }
  let processed ←
    if isAr then do
      let tr ← env.llmInvoke (translatePromptEn question)
      pure (strStrip tr)
    else
      pure question
  let s2 := { s1 with processed_question := some processed }
  let resp ← env.llmInvoke (classificationPrompt processed)
  pure { s2 with classification := some (strLower (strStrip resp)) }

/-- Body of the `try` block of `portfolio_agent_node`. Because Python
mutates the state dict in place, writes made before a raise survive into
the `except` block: the body returns the state-so-far together with the
exception, if any. -/
def portfolioTryBody (env : Env) (question : String) (s : AgentState) :
    AgentState × Option PyErr :=
  if env.vannaConnected = false then
    (s, some (PyErr.connectionError "Vanna is not connected to the database."))
  else
    match env.generateSql question with
    | Except.error e => (s, some e)
    | Except.ok sql =>
      let s1 := { s with sql_query := some sql }
      if strIsEmpty sql || !hasSubstr "SELECT" (strUpper sql) then
        (s1, some (PyErr.valueError "Failed to generate a valid SQL query."))
      else
        match env.runSql sql with
        | Except.error e => (s1, some e)
        | Except.ok df =>
          let s2 := { s1 with df_results := some df }
          match df with
          | some rows =>
            if !rows.isEmpty then
              match env.generateExplanation sql (dfToString rows) question with
              | Except.error e => (s2, some e)
              | Except.ok expl => ({ s2 with final_answer := some expl }, none)
            else
              ({ s2 with final_answer := some noDataMsg }, none)
          | none => ({ s2 with final_answer := some noDataMsg }, none)

/-- `portfolio_agent_node`: the dict read is outside the `try`; the
`except Exception` block replaces only `final_answer` with the apology. -/
def portfolio_agent_node (env : Env) (s : AgentState) : Except PyErr AgentState := do
  let question ← getKey "processed_question" s.processed_question
  let r := portfolioTryBody env question s
  match r.2 with
  | none => pure r.1
  | some _ => pure { r.1 with final_answer := some portfolioApology }

/-- `internet_agent_node`: the dict read is outside the `try`; any error
of the web-search call is caught and becomes the fixed apology. -/
def internet_agent_node (env : Env) (s : AgentState) : Except PyErr AgentState := do
  let question ← getKey "processed_question" s.processed_question
  match env.webSearch question with
  | Except.ok answer => pure { s with final_answer := some answer }
  | Except.error _ => pure { s with final_answer := some internetApology }

/-- `smalltalk_agent_node`: a single LLM call with no `try`, so an LLM
error propagates past the handler. -/
def smalltalk_agent_node (env : Env) (s : AgentState) : Except PyErr AgentState := do
  let question ← getKey "processed_question" s.processed_question
  let resp ← env.llmInvoke (smalltalkPrompt question)
  pure { s with final_answer := some resp }

/-- `identity_agent_node`: fixed answer, no external calls. -/
def identity_agent_node (_env : Env) (s : AgentState) : Except PyErr AgentState :=
  Except.ok { s with final_answer := some identityMsg }

/-- `invalid_query_node`: fixed answer, no external calls. -/
def invalid_query_node (_env : Env) (s : AgentState) : Except PyErr AgentState :=
  Except.ok { s with final_answer := some invalidMsg }

/-- `final_translation_node`: back-translates iff `is_arabic` is truthy
and `final_answer` is truthy (Python short-circuit: the second key is
read only when the first is true). The LLM call has no `try`. -/
def final_translation_node (env : Env) (s : AgentState) : Except PyErr AgentState := do
  let isAr ← getKey "is_arabic" s.is_arabic
  if isAr then do
    let fa ← getKey "final_answer" s.final_answer
    if !strIsEmpty fa then do
      let resp ← env.llmInvoke (translatePromptAr fa)
      pure { s with final_answer := some resp }
    else
      pure s
  else
    pure s

/-- Pure core of `decide_next_node`: the branch name as a function of
the classification string. -/
def decideCategory (c : String) : String :=
  if c == "portfolio" then "portfolio_agent"
  else if c == "general" then "internet_agent"
  else if c == "smalltalk" then "smalltalk_agent"
  else if c == "identity" then "identity_agent"
  else "invalid_query_agent"

/-- `decide_next_node`: reads `state["classification"]` and picks the branch. -/
def decide_next_node (s : AgentState) : Except PyErr String := do
  let c ← getKey "classification" s.classification
  pure (decideCategory c)

/-- The node table registered by the `builder.add_node` calls. -/
def nodeFn (name : String) : Option (Env → AgentState → Except PyErr AgentState) :=
  if name == "router" then some router_node
  else if name == "portfolio_agent" then some portfolio_agent_node
  else if name == "internet_agent" then some internet_agent_node
  else if name == "smalltalk_agent" then some smalltalk_agent_node
  else if name == "identity_agent" then some identity_agent_node
  else if name == "invalid_query_agent" then some invalid_query_node
  else if name == "final_translator" then some final_translation_node
  else none

/-- The path map of `builder.add_conditional_edges("router", ...)`. -/
def routerPathMap (branch : String) : Option String :=
  if branch == "portfolio_agent" then some "portfolio_agent"
  else if branch == "internet_agent" then some "internet_agent"
  else if branch == "smalltalk_agent" then some "smalltalk_agent"
  else if branch == "identity_agent" then some "identity_agent"
  else if branch == "invalid_query_agent" then some "invalid_query_agent"
  else none

/-- The static edges registered by the `builder.add_edge` calls; `"END"`
is LangGraph terminal `END`. -/
def staticEdge (name : String) : Option String :=
  if name == "portfolio_agent" then some "final_translator"
  else if name == "internet_agent" then some "final_translator"
  else if name == "smalltalk_agent" then some "final_translator"
  else if name == "identity_agent" then some "final_translator"
  else if name == "invalid_query_agent" then some "final_translator"
  else if name == "final_translator" then some "END"
  else none

/-- Successor of a node on the post-node state: conditional edges out of
the router, static edges elsewhere; a branch value missing from the path
map, or a node with no outgoing edge, is a graph error. -/
def nextNode (name : String) (s : AgentState) : Except PyErr String :=
  if name == "router" then do
    let branch ← decide_next_node s
    match routerPathMap branch with
    | some n => pure n
    | none => Except.error (PyErr.external "unknown conditional branch")
  else
    match staticEdge name with
    | some n => pure n
    | none => Except.error (PyErr.external "node has no outgoing edge")

/-- Fuel-based executor of the compiled graph, accumulating the list of
executed node names; running out of fuel models the LangGraph recursion
limit error. -/
def runFrom (env : Env) : Nat → String → AgentState → List String →
    Except PyErr (AgentState × List String)
  | 0, _, _, _ => Except.error (PyErr.external "recursion limit reached")
  | Nat.succ fuel, name, s, trace =>
    if name == "END" then Except.ok (s, trace)
    else
      match nodeFn name with
      | none => Except.error (PyErr.external "unknown node")
      | some f => do
        let s1 ← f env s
        let nxt ← nextNode name s1
        runFrom env fuel nxt s1 (trace ++ [name])

/-- The input dict the UI passes to `agent_executor.invoke`: only
`original_question` and `chat_history` are set. -/
def initState (q : String) (h : List Message) : AgentState :=
  { original_question := q
    processed_question := none
    is_arabic := none
    classification := none
    chat_history := h
    sql_query := none
    df_results := none
    final_answer := none }

/-- One full turn of the compiled graph (`agent_executor.invoke`): entry
point `router`, ample fuel for the three-node path plus terminal. -/
def runTurn (env : Env) (q : String) (h : List Message) : Except PyErr AgentState :=
  Except.map Prod.fst (runFrom env 10 "router" (initState q h) [])

/-- The trace of node names a full turn executes. -/
def runTurnTrace (env : Env) (q : String) (h : List Message) : Except PyErr (List String) :=
  Except.map Prod.snd (runFrom env 10 "router" (initState q h) [])

/-- The five category labels of the classification prompt. -/
def fiveCategories : List String :=
  ["portfolio", "general", "smalltalk", "identity", "invalid"]

/-- The five handler node names. -/
def handlerNames : List String :=
  ["portfolio_agent", "internet_agent", "smalltalk_agent", "identity_agent", "invalid_query_agent"]

/-- Replacement of the chat history of a state. -/
def setHistory (h : List Message) (s : AgentState) : AgentState :=
  { s with chat_history := h }

/-- The parts of the final state the UI extracts besides the history:
`final_answer`, `sql_query`, `df_results`. -/
def projOut (s : AgentState) : Option String × Option String × Option (Option DataFrame) :=
  (s.final_answer, s.sql_query, s.df_results)

/-- A benign environment in which every collaborator succeeds and the
classifier always returns `label`. -/
def constEnv (label : String) : Env :=
  { llmInvoke := fun _ => Except.ok label
    vannaConnected := true
    generateSql := fun _ => Except.ok "SELECT 1"
    runSql := fun _ => Except.ok (some [["1"]])
    generateExplanation := fun _ _ _ => Except.ok "explained"
    webSearch := fun _ => Except.ok "searched" }

/-! Helper lemmas. -/

@[simp] lemma ok_bind {α β : Type} (a : α) (k : α → Except PyErr β) :
    (Except.ok a >>= k) = k a := rfl

@[simp] lemma error_bind {α β : Type} (e : PyErr) (k : α → Except PyErr β) :
    ((Except.error e : Except PyErr α) >>= k) = Except.error e := rfl

@[simp] lemma pure_eq_ok {α : Type} (a : α) : (pure a : Except PyErr α) = Except.ok a := rfl

@[simp] lemma getKey_some {α : Type} (k : String) (a : α) :
    getKey k (some a) = Except.ok a := rfl

@[simp] lemma getKey_none {α : Type} (k : String) :
    getKey k (none : Option α) = Except.error (PyErr.keyError k) := rfl

lemma strIsEmpty_false_of_ne (a : String) (h : a ≠ "") : strIsEmpty a = false := by
  cases a with
  | mk l =>
    cases l with
    | nil => exact absurd rfl h
    | cons c cs => rfl

/-- Case analysis of the `try` body of the portfolio handler: the
state-so-far always keeps the routing fields, and carries a final
answer whenever no exception was pending. -/
lemma portfolioTryBody_spec (env : Env) (q : String) (s : AgentState) :
    ∃ s1 e, portfolioTryBody env q s = (s1, e) ∧
      (e = none → ∃ a, s1.final_answer = some a) ∧
      s1.original_question = s.original_question ∧
      s1.processed_question = s.processed_question ∧
      s1.is_arabic = s.is_arabic ∧
      s1.chat_history = s.chat_history := by
  unfold portfolioTryBody
  repeat' split
  all_goals refine ⟨_, _, rfl, ?_, rfl, rfl, rfl, rfl⟩
  all_goals simp

/-- The portfolio handler is total on any state whose processed
question is present, and only touches `sql_query`, `df_results`,
`final_answer`. -/
lemma portfolio_total (env : Env) (s : AgentState) (q : String)
    (hq : s.processed_question = some q) :
    ∃ s1, portfolio_agent_node env s = Except.ok s1 ∧
      (∃ a, s1.final_answer = some a) ∧
      s1.original_question = s.original_question ∧
      s1.processed_question = some q ∧
      s1.is_arabic = s.is_arabic ∧
      s1.chat_history = s.chat_history := by
  obtain ⟨s1, e, heq, himpl, hf1, hf2, hf3, hf4⟩ := portfolioTryBody_spec env q s
  unfold portfolio_agent_node
  rw [hq]
  simp only [getKey_some, ok_bind, heq]
  cases e with
  | none => exact ⟨s1, rfl, himpl rfl, hf1, hf2.trans hq, hf3, hf4⟩
  | some err => exact ⟨_, rfl, ⟨portfolioApology, rfl⟩, hf1, hf2.trans hq, hf3, hf4⟩

/-- The web-search handler is total on any state whose processed
question is present. -/
lemma internet_total (env : Env) (s : AgentState) (q : String)
    (hq : s.processed_question = some q) :
    ∃ s1, internet_agent_node env s = Except.ok s1 ∧
      (∃ a, s1.final_answer = some a) ∧
      s1.original_question = s.original_question ∧
      s1.processed_question = some q ∧
      s1.is_arabic = s.is_arabic ∧
      s1.chat_history = s.chat_history := by
  unfold internet_agent_node
  rw [hq]
  simp only [getKey_some, ok_bind]
  cases hw : env.webSearch q with
  | ok answer =>
    exact ⟨{ s with final_answer := some answer }, by simp [hw, hq], ⟨answer, rfl⟩, rfl,
      by rw [hq], rfl, rfl⟩
  | error e =>
    exact ⟨{ s with final_answer := some internetApology }, by simp [hw, hq], ⟨internetApology, rfl⟩,
      rfl, by rw [hq], rfl, rfl⟩

/-- The finalizer is total on any state whose `is_arabic` and
`final_answer` keys are present, provided the LLM answers. -/
lemma finalizer_total (env : Env) (s : AgentState) (b : Bool) (a : String)
    (hb : s.is_arabic = some b) (ha : s.final_answer = some a)
    (hllm : ∀ p, ∃ r, env.llmInvoke p = Except.ok r) :
    ∃ s2 a2, final_translation_node env s = Except.ok s2 ∧ s2.final_answer = some a2 := by
  unfold final_translation_node
  rw [hb]
  simp only [getKey_some, ok_bind]
  cases b with
  | false => exact ⟨s, a, by simp, ha⟩
  | true =>
    rw [ha]
    simp only [getKey_some, ok_bind]
    cases he : strIsEmpty a with
    | true => exact ⟨s, a, by simp [he], ha⟩
    | false =>
      obtain ⟨r, hr⟩ := hllm (translatePromptAr a)
      exact ⟨{ s with final_answer := some r }, r, by simp [he, hr, hb], rfl⟩

/-- Every classification string is mapped to one of the five handler
node names. -/
lemma decideCategory_mem (c : String) : decideCategory c ∈ handlerNames := by
  unfold decideCategory handlerNames
  repeat' split
  all_goals simp

/-- The conditional path map of the router is the identity on every
handler name. -/
lemma routerPathMap_on_handler : ∀ n ∈ handlerNames, routerPathMap n = some n := by decide

/-- Every handler node has a static edge to the finalizer. -/
lemma staticEdge_on_handler : ∀ n ∈ handlerNames, staticEdge n = some "final_translator" := by decide

lemma smalltalk_ok (env : Env) (s : AgentState) (q r : String)
    (hq : s.processed_question = some q)
    (hr : env.llmInvoke (smalltalkPrompt q) = Except.ok r) :
    smalltalk_agent_node env s = Except.ok { s with final_answer := some r } := by
  unfold smalltalk_agent_node
  rw [hq]
  simp [hr]

lemma smalltalk_err (env : Env) (s : AgentState) (q : String) (e : PyErr)
    (hq : s.processed_question = some q)
    (he : env.llmInvoke (smalltalkPrompt q) = Except.error e) :
    smalltalk_agent_node env s = Except.error e := by
  unfold smalltalk_agent_node
  rw [hq]
  simp [he]

/-- One unfolding step of the executor. -/
lemma runFrom_succ (env : Env) (n : Nat) (name : String) (s : AgentState) (tr : List String) :
    runFrom env (n + 1) name s tr =
      (if name == "END" then Except.ok (s, tr)
      else
        match nodeFn name with
        | none => Except.error (PyErr.external "unknown node")
        | some f => do
            let s1 ← f env s
            let nxt ← nextNode name s1
            runFrom env n nxt s1 (tr ++ [name])) := rfl

/-- Executor step through a known node that returns normally. -/
lemma runFrom_step_node (env : Env) (n : Nat) (name : String)
    (f : Env → AgentState → Except PyErr AgentState) (s s1 : AgentState) (tr : List String)
    (hne : (name == "END") = false) (hfn : nodeFn name = some f)
    (hf : f env s = Except.ok s1) :
    runFrom env (n + 1) name s tr =
      (nextNode name s1 >>= fun nxt => runFrom env n nxt s1 (tr ++ [name])) := by
  rw [runFrom_succ]
  simp only [hne, Bool.false_eq_true, if_false, hfn, hf, ok_bind]

/-- From the finalizer node the run terminates, with a populated final
answer, whenever the LLM answers. -/
lemma runFrom_finalizer (env : Env) (n : Nat) (s1 : AgentState) (tr : List String)
    (b : Bool) (a : String) (hb : s1.is_arabic = some b) (ha : s1.final_answer = some a)
    (hllm : ∀ p, ∃ r, env.llmInvoke p = Except.ok r) :
    ∃ s2 a2, runFrom env (n + 2) "final_translator" s1 tr =
      Except.ok (s2, tr ++ ["final_translator"]) ∧ s2.final_answer = some a2 := by
  obtain ⟨s2, a2, hft, ha2⟩ := finalizer_total env s1 b a hb ha hllm
  refine ⟨s2, a2, ?_, ha2⟩
  have h1 := runFrom_step_node env (n + 1) "final_translator" final_translation_node s1 s2 tr
    rfl rfl hft
  rw [h1, show nextNode "final_translator" s2 = Except.ok "END" from rfl]
  simp only [ok_bind]
  rw [runFrom_succ]
  rfl

/-- From any of the five handler nodes the run executes that handler,
then the finalizer, then stops, with a populated final answer —
provided the LLM answers whenever called. -/
lemma runFrom_from_handler (env : Env) (n : Nat) (name : String) (s : AgentState)
    (tr : List String) (hmem : name ∈ handlerNames)
    (q : String) (hq : s.processed_question = some q)
    (b : Bool) (hb : s.is_arabic = some b)
    (hllm : ∀ p, ∃ r, env.llmInvoke p = Except.ok r) :
    ∃ s2 a2, runFrom env (n + 3) name s tr =
      Except.ok (s2, tr ++ [name, "final_translator"]) ∧ s2.final_answer = some a2 := by
  have happ : ∀ x : String, (tr ++ [x]) ++ ["final_translator"] = tr ++ [x, "final_translator"] := by
    intro x; simp
  simp only [handlerNames, List.mem_cons, List.mem_singleton, List.not_mem_nil, or_false] at hmem
  rcases hmem with rfl | rfl | rfl | rfl | rfl
  · obtain ⟨s1, hnode, ⟨a, ha⟩, _, _, hia, _⟩ := portfolio_total env s q hq
    obtain ⟨s2, a2, h2, ha2⟩ := runFrom_finalizer env n s1 (tr ++ ["portfolio_agent"]) b a
      (hia.trans hb) ha hllm
    refine ⟨s2, a2, ?_, ha2⟩
    rw [runFrom_step_node env (n + 2) "portfolio_agent" portfolio_agent_node s s1 tr rfl rfl hnode,
      show nextNode "portfolio_agent" s1 = Except.ok "final_translator" from rfl]
    simp only [ok_bind]
    rw [h2, happ]
  · obtain ⟨s1, hnode, ⟨a, ha⟩, _, _, hia, _⟩ := internet_total env s q hq
    obtain ⟨s2, a2, h2, ha2⟩ := runFrom_finalizer env n s1 (tr ++ ["internet_agent"]) b a
      (hia.trans hb) ha hllm
    refine ⟨s2, a2, ?_, ha2⟩
    rw [runFrom_step_node env (n + 2) "internet_agent" internet_agent_node s s1 tr rfl rfl hnode,
      show nextNode "internet_agent" s1 = Except.ok "final_translator" from rfl]
    simp only [ok_bind]
    rw [h2, happ]
  · obtain ⟨r, hr⟩ := hllm (smalltalkPrompt q)
    have hnode := smalltalk_ok env s q r hq hr
    obtain ⟨s2, a2, h2, ha2⟩ := runFrom_finalizer env n { s with final_answer := some r }
      (tr ++ ["smalltalk_agent"]) b r hb rfl hllm
    refine ⟨s2, a2, ?_, ha2⟩
    rw [runFrom_step_node env (n + 2) "smalltalk_agent" smalltalk_agent_node s _ tr rfl rfl hnode,
      show nextNode "smalltalk_agent" { s with final_answer := some r } =
        Except.ok "final_translator" from rfl]
    simp only [ok_bind]
    rw [h2, happ]
  · obtain ⟨s2, a2, h2, ha2⟩ := runFrom_finalizer env n { s with final_answer := some identityMsg }
      (tr ++ ["identity_agent"]) b identityMsg hb rfl hllm
    refine ⟨s2, a2, ?_, ha2⟩
    rw [runFrom_step_node env (n + 2) "identity_agent" identity_agent_node s _ tr rfl rfl rfl,
      show nextNode "identity_agent" { s with final_answer := some identityMsg } =
        Except.ok "final_translator" from rfl]
    simp only [ok_bind]
    rw [h2, happ]
  · obtain ⟨s2, a2, h2, ha2⟩ := runFrom_finalizer env n { s with final_answer := some invalidMsg }
      (tr ++ ["invalid_query_agent"]) b invalidMsg hb rfl hllm
    refine ⟨s2, a2, ?_, ha2⟩
    rw [runFrom_step_node env (n + 2) "invalid_query_agent" invalid_query_node s _ tr rfl rfl rfl,
      show nextNode "invalid_query_agent" { s with final_answer := some invalidMsg } =
        Except.ok "final_translator" from rfl]
    simp only [ok_bind]
    rw [h2, happ]

/-- The router succeeds whenever the LLM answers, and writes the three
classifier fields. -/
lemma router_spec (env : Env) (s : AgentState)
    (hllm : ∀ p, ∃ r, env.llmInvoke p = Except.ok r) :
    ∃ s1 p c, router_node env s = Except.ok s1 ∧
      s1.processed_question = some p ∧
      s1.is_arabic = some (strAny s.original_question isArabicChar) ∧
      s1.classification = some c := by
  unfold router_node
  cases hA : strAny s.original_question isArabicChar with
  | false =>
    obtain ⟨r, hr⟩ := hllm (classificationPrompt s.original_question)
    exact ⟨{ s with is_arabic := some false, processed_question := some s.original_question, classification := some (strLower (strStrip r)) },
      s.original_question, strLower (strStrip r), by simp [hA, hr], rfl, rfl, rfl⟩
  | true =>
    obtain ⟨t, ht⟩ := hllm (translatePromptEn s.original_question)
    obtain ⟨r, hr⟩ := hllm (classificationPrompt (strStrip t))
    exact ⟨{ s with is_arabic := some true, processed_question := some (strStrip t), classification := some (strLower (strStrip r)) },
      strStrip t, strLower (strStrip r), by simp [hA, ht, hr], rfl, rfl, rfl⟩

/-- Out of the router, the conditional edge goes to the branch chosen by
`decide_next_node`, which the path map passes through unchanged. -/
lemma nextNode_router (s : AgentState) (c : String) (hc : s.classification = some c) :
    nextNode "router" s = Except.ok (decideCategory c) := by
  have hmap := routerPathMap_on_handler (decideCategory c) (decideCategory_mem c)
  unfold nextNode decide_next_node
  rw [hc]
  simp [hmap]

/-- A full turn is the router step followed by the run from the chosen
branch. -/
lemma runTurn_eq_branch (env : Env) (q : String) (h : List Message) (s1 : AgentState)
    (c : String) (hrouter : router_node env (initState q h) = Except.ok s1)
    (hc : s1.classification = some c) :
    runTurn env q h =
      Except.map Prod.fst (runFrom env (6 + 3) (decideCategory c) s1 ["router"]) := by
  unfold runTurn
  show Except.map Prod.fst (runFrom env (9 + 1) "router" (initState q h) []) =
    Except.map Prod.fst (runFrom env (6 + 3) (decideCategory c) s1 ["router"])
  rw [runFrom_step_node env 9 "router" router_node (initState q h) s1 [] rfl rfl hrouter,
    nextNode_router s1 c hc]
  simp only [ok_bind]
  rfl

/-- Environment in which every LLM call raises; all other collaborators
behave. -/
def envModelDown : Env :=
  { llmInvoke := fun _ => Except.error (PyErr.external "language model unreachable")
    vannaConnected := true
    generateSql := fun _ => Except.ok "SELECT 1"
    runSql := fun _ => Except.ok (some [["1"]])
    generateExplanation := fun _ _ _ => Except.ok "fine"
    webSearch := fun _ => Except.ok "fine" }

/-- Environment in which every LLM call raises with a classification-
flavoured message. -/
def envClassifierDown : Env :=
  { llmInvoke := fun _ => Except.error (PyErr.external "classification model failure")
    vannaConnected := true
    generateSql := fun _ => Except.ok "SELECT 1"
    runSql := fun _ => Except.ok (some [["1"]])
    generateExplanation := fun _ _ _ => Except.ok "fine"
    webSearch := fun _ => Except.ok "fine" }

/-- Environment in which every LLM call raises with a chat-flavoured
message. -/
def envChatDown : Env :=
  { llmInvoke := fun _ => Except.error (PyErr.external "chat model offline")
    vannaConnected := true
    generateSql := fun _ => Except.ok "SELECT 1"
    runSql := fun _ => Except.ok (some [["1"]])
    generateExplanation := fun _ _ _ => Except.ok "fine"
    webSearch := fun _ => Except.ok "fine" }

/-- A state as it reaches a handler on the smalltalk branch. -/
def smalltalkReadyState : AgentState :=
  { original_question := "hi there"
    processed_question := some "hi there"
    is_arabic := some false
    classification := some "smalltalk"
    chat_history := []
    sql_query := none
    df_results := none
    final_answer := none }

/-! Claims. -/

/-- Claim C1, counterexample: with an environment whose language model
raises, a full run of the routing graph raises to the caller instead of
returning a state with `final_answer` populated — refuting the claim
that `runTurn` never raises whatever any external collaborator does. -/
theorem runTurn_raises_when_llm_raises :
    runTurn envModelDown "hello" [] =
      Except.error (PyErr.external "language model unreachable") := by decide

/-- Claim C1, amended: provided every language-model call returns, a
full run of the routing graph never raises and the returned state has
`final_answer` populated with some string, whatever the structured-data
and web-search collaborators do. -/
theorem runTurn_total_when_llm_ok (env : Env) (q : String) (h : List Message)
    (hllm : ∀ p, ∃ r, env.llmInvoke p = Except.ok r) :
    ∃ s a, runTurn env q h = Except.ok s ∧ s.final_answer = some a := by
  obtain ⟨s1, p, c, hrouter, hp, hb, hc⟩ := router_spec env (initState q h) hllm
  obtain ⟨s2, a2, hrun, ha2⟩ := runFrom_from_handler env 6 (decideCategory c) s1 ["router"]
    (decideCategory_mem c) p hp _ hb hllm
  exact ⟨s2, a2, by rw [runTurn_eq_branch env q h s1 c hrouter hc, hrun]; rfl, ha2⟩

/-- Witness for the amended claim C1 at a concrete input. -/
theorem runTurn_total_when_llm_ok_witness :
    ∃ s a, runTurn (constEnv "smalltalk") "hello" [] = Except.ok s ∧ s.final_answer = some a :=
  runTurn_total_when_llm_ok (constEnv "smalltalk") "hello" []
    (fun _ => ⟨"smalltalk", rfl⟩)

/-- Claim C2, counterexample: when the language model raises during
classification, the run is not routed to the invalid branch with an
apology — the exception propagates out of the routing core. -/
theorem classification_failure_crashes_runTurn :
    runTurn envClassifierDown "what is the market outlook" [] =
      Except.error (PyErr.external "classification model failure") := by decide

/-- A full run fails with the router error whenever the router raises. -/
lemma runTurn_router_error (env : Env) (q : String) (h : List Message) (e : PyErr)
    (hrouter : router_node env (initState q h) = Except.error e) :
    runTurn env q h = Except.error e := by
  unfold runTurn
  show Except.map Prod.fst (runFrom env (9 + 1) "router" (initState q h) []) = Except.error e
  rw [runFrom_succ]
  simp [show ("router" == "END") = false from rfl,
    show nodeFn "router" = some router_node from rfl, hrouter, Except.map]

/-- Environment whose LLM answers only the Arabic-to-English translation
request for the concrete Arabic witness question and raises on every
other prompt, the classification prompt included. -/
def envTranslateOnly : Env :=
  { llmInvoke := fun p =>
      if p == translatePromptEn "مرحبا" then Except.ok "hello"
      else Except.error (PyErr.external "classifier offline")
    vannaConnected := true
    generateSql := fun _ => Except.ok "SELECT 1"
    runSql := fun _ => Except.ok (some [["1"]])
    generateExplanation := fun _ _ _ => Except.ok "fine"
    webSearch := fun _ => Except.ok "fine" }

/-- Claim C2, amended: an error raised by the language model during
language detection/translation or during classification propagates out
of `runTurn` as that same error, on non-Arabic inputs (classification
error) as well as on Arabic inputs (translation error, or
classification error after a successful translation); the invalid
branch and its apology are reserved for unrecognized classification
strings, not for raised errors. -/
theorem classification_error_propagates (env : Env) (q : String) (h : List Message) (e : PyErr) :
    (strAny q isArabicChar = false →
      env.llmInvoke (classificationPrompt q) = Except.error e →
      runTurn env q h = Except.error e) ∧
    (strAny q isArabicChar = true →
      env.llmInvoke (translatePromptEn q) = Except.error e →
      runTurn env q h = Except.error e) ∧
    (∀ t, strAny q isArabicChar = true →
      env.llmInvoke (translatePromptEn q) = Except.ok t →
      env.llmInvoke (classificationPrompt (strStrip t)) = Except.error e →
      runTurn env q h = Except.error e) := by
  refine ⟨?_, ?_, ?_⟩
  · intro hna hcls
    refine runTurn_router_error env q h e ?_
    unfold router_node
    simp [initState, hna, hcls]
  · intro hA htr
    refine runTurn_router_error env q h e ?_
    unfold router_node
    simp [initState, hA, htr]
  · intro t hA htr hcls
    refine runTurn_router_error env q h e ?_
    unfold router_node
    simp [initState, hA, htr, hcls]

/-- Witness for the amended claim C2 at concrete inputs: a
classification error on a non-Arabic question, a translation error on
an Arabic question, and a classification error after a successful
translation of an Arabic question. -/
theorem classification_error_propagates_witness :
    runTurn envClassifierDown "good morning" [] =
      Except.error (PyErr.external "classification model failure") ∧
    runTurn envClassifierDown "مرحبا" [] =
      Except.error (PyErr.external "classification model failure") ∧
    runTurn envTranslateOnly "مرحبا" [] =
      Except.error (PyErr.external "classifier offline") :=
  ⟨(classification_error_propagates envClassifierDown "good morning" []
      (PyErr.external "classification model failure")).1 (by decide) rfl,
   (classification_error_propagates envClassifierDown "مرحبا" []
      (PyErr.external "classification model failure")).2.1 (by decide) rfl,
   (classification_error_propagates envTranslateOnly "مرحبا" []
      (PyErr.external "classifier offline")).2.2 "hello" (by decide) (by decide) (by decide)⟩

/-- Claim C3, counterexample: the smalltalk handler is not a total
function from state to state — when the language model raises, the
exception propagates past the handler boundary and no `final_answer` is
produced. -/
theorem smalltalk_handler_propagates_llm_error :
    smalltalk_agent_node envChatDown smalltalkReadyState =
      Except.error (PyErr.external "chat model offline") := by decide

/-- Claim C3, amended: on any state carrying a processed question, the
portfolio, web-search, identity and invalid handlers are total — they
return a state with `final_answer` populated and let no exception of
their internal calls escape — while the smalltalk handler returns the
model output as `final_answer` when the language-model call succeeds
but propagates the model's exception otherwise. -/
theorem handler_totality_amended (env : Env) (s : AgentState) (q : String)
    (hq : s.processed_question = some q) :
    (∃ s1, portfolio_agent_node env s = Except.ok s1 ∧ ∃ a, s1.final_answer = some a) ∧
    (∃ s1, internet_agent_node env s = Except.ok s1 ∧ ∃ a, s1.final_answer = some a) ∧
    (∃ s1, identity_agent_node env s = Except.ok s1 ∧ ∃ a, s1.final_answer = some a) ∧
    (∃ s1, invalid_query_node env s = Except.ok s1 ∧ ∃ a, s1.final_answer = some a) ∧
    (∀ r, env.llmInvoke (smalltalkPrompt q) = Except.ok r →
      smalltalk_agent_node env s = Except.ok { s with final_answer := some r }) ∧
    (∀ e, env.llmInvoke (smalltalkPrompt q) = Except.error e →
      smalltalk_agent_node env s = Except.error e) := by
  obtain ⟨s1, h1, ha1, _, _, _, _⟩ := portfolio_total env s q hq
  obtain ⟨s2, h2, ha2, _, _, _, _⟩ := internet_total env s q hq
  refine ⟨⟨s1, h1, ha1⟩, ⟨s2, h2, ha2⟩, ⟨_, rfl, identityMsg, rfl⟩, ⟨_, rfl, invalidMsg, rfl⟩,
    ?_, ?_⟩
  · intro r hr
    exact smalltalk_ok env s q r hq hr
  · intro e he
    exact smalltalk_err env s q e hq he

/-- Witness for the amended claim C3 at a concrete input. -/
theorem handler_totality_amended_witness :
    (∃ s1, portfolio_agent_node envChatDown smalltalkReadyState = Except.ok s1 ∧
      ∃ a, s1.final_answer = some a) ∧
    (∃ s1, internet_agent_node envChatDown smalltalkReadyState = Except.ok s1 ∧
      ∃ a, s1.final_answer = some a) ∧
    (∃ s1, identity_agent_node envChatDown smalltalkReadyState = Except.ok s1 ∧
      ∃ a, s1.final_answer = some a) ∧
    (∃ s1, invalid_query_node envChatDown smalltalkReadyState = Except.ok s1 ∧
      ∃ a, s1.final_answer = some a) ∧
    (∀ r, envChatDown.llmInvoke (smalltalkPrompt "hi there") = Except.ok r →
      smalltalk_agent_node envChatDown smalltalkReadyState =
        Except.ok { smalltalkReadyState with final_answer := some r }) ∧
    (∀ e, envChatDown.llmInvoke (smalltalkPrompt "hi there") = Except.error e →
      smalltalk_agent_node envChatDown smalltalkReadyState = Except.error e) :=
  handler_totality_amended envChatDown smalltalkReadyState "hi there" rfl

/-- The generated query of the counterexample to the SQL-guard claim: a
write-shaped statement that nonetheless contains the token SELECT in a
subselect. -/
def writeShapedQuery : String :=
  "DELETE FROM ai_trading.portfolio_summary WHERE id IN (SELECT id FROM ai_trading.stale_rows)"

/-- Environment whose query generator returns `writeShapedQuery` and
whose executor records the query it was given. -/
def envWriteQuery : Env :=
  { llmInvoke := fun _ => Except.ok "portfolio"
    vannaConnected := true
    generateSql := fun _ => Except.ok writeShapedQuery
    runSql := fun sql => Except.ok (some [[sql]])
    generateExplanation := fun _ _ _ => Except.ok "executed and explained"
    webSearch := fun _ => Except.ok "unused" }

/-- A state as it reaches the portfolio handler. -/
def portfolioReadyState : AgentState :=
  { original_question := "clean up my positions"
    processed_question := some "clean up my positions"
    is_arabic := some false
    classification := some "portfolio"
    chat_history := []
    sql_query := none
    df_results := none
    final_answer := none }

/-- Environment whose query generator returns an UPDATE statement with
no SELECT token anywhere. -/
def envUpdateQuery : Env :=
  { llmInvoke := fun _ => Except.ok "portfolio"
    vannaConnected := true
    generateSql := fun _ => Except.ok "UPDATE positions SET qty = 0"
    runSql := fun sql => Except.ok (some [[sql]])
    generateExplanation := fun _ _ _ => Except.ok "executed and explained"
    webSearch := fun _ => Except.ok "unused" }

/-- Claim C4, counterexample: a generated query that is write-shaped (it
starts with DELETE) but contains SELECT in a subselect passes the guard
and is executed against the database — the recorded result set shows the
executor ran it — refuting the claim that anything not resembling a read
query is rejected. -/
theorem write_shaped_query_executed :
    leadsWith "DELETE ".data writeShapedQuery.data = true ∧
    Except.map AgentState.df_results (portfolio_agent_node envWriteQuery portfolioReadyState) =
      Except.ok (some (some [[writeShapedQuery]])) := by decide

/-- Claim C4, amended: the handler rejects exactly the generated queries
that are empty or lack the substring SELECT case-insensitively; on such
a query it does not execute anything (the result is independent of the
executor and `df_results` is untouched) and answers with the fixed
apology. Queries containing SELECT anywhere — including write-shaped
ones — pass the guard. -/
theorem sql_guard_amended (env : Env) (s : AgentState) (q sql : String)
    (hq : s.processed_question = some q)
    (hvn : env.vannaConnected = true)
    (hsql : env.generateSql q = Except.ok sql)
    (hbad : strIsEmpty sql = true ∨ hasSubstr "SELECT" (strUpper sql) = false) :
    portfolio_agent_node env s =
      Except.ok { s with sql_query := some sql, final_answer := some portfolioApology } ∧
    ∀ run2, portfolio_agent_node { env with runSql := run2 } s = portfolio_agent_node env s := by
  have key : ∀ e2 : Env, e2.vannaConnected = true → e2.generateSql q = Except.ok sql →
      portfolio_agent_node e2 s =
        Except.ok { s with sql_query := some sql, final_answer := some portfolioApology } := by
    intro e2 h1 h2
    unfold portfolio_agent_node portfolioTryBody
    rw [hq]
    rcases hbad with hx | hx <;> simp [getKey, h1, h2, hx]
  exact ⟨key env hvn hsql, fun run2 =>
    (key { env with runSql := run2 } hvn hsql).trans (key env hvn hsql).symm⟩

/-- Witness for the amended claim C4 at a concrete input. -/
theorem sql_guard_amended_witness :
    portfolio_agent_node envUpdateQuery portfolioReadyState =
      Except.ok { portfolioReadyState with sql_query := some "UPDATE positions SET qty = 0", final_answer := some portfolioApology } :=
  (sql_guard_amended envUpdateQuery portfolioReadyState "clean up my positions"
    "UPDATE positions SET qty = 0" rfl rfl rfl (Or.inr (by decide))).1

/-- Scenario-B state: the portfolio question of the spec. -/
def ytdState : AgentState :=
  { original_question := "What\x27s my YTD return?"
    processed_question := some "What\x27s my YTD return?"
    is_arabic := some false
    classification := some "portfolio"
    chat_history := []
    sql_query := none
    df_results := none
    final_answer := none }

/-- Environment for scenario B: read query, one result row, explanation
succeeds. -/
def envYtd : Env :=
  { llmInvoke := fun _ => Except.ok "portfolio"
    vannaConnected := true
    generateSql := fun _ => Except.ok "SELECT ytd_return FROM ai_trading.portfolio_summary"
    runSql := fun _ => Except.ok (some [["12.4"]])
    generateExplanation := fun _ _ _ => Except.ok "Your YTD return is 12.4 percent."
    webSearch := fun _ => Except.ok "unused" }

/-- Environment in which only the explanation call raises. -/
def envExplainDown : Env :=
  { llmInvoke := fun _ => Except.ok "portfolio"
    vannaConnected := true
    generateSql := fun _ => Except.ok "SELECT ytd_profit FROM ai_trading.portfolio_summary"
    runSql := fun _ => Except.ok (some [["8000"]])
    generateExplanation := fun _ _ _ => Except.error (PyErr.external "explanation service down")
    webSearch := fun _ => Except.ok "unused" }

/-- Claim C8: on the portfolio path, when generation passes the guard
and execution succeeds, an empty result set yields the fixed no-data
message and a non-empty one yields the requested explanation, with
`sql_query` and `df_results` both populated in the returned state. -/
theorem portfolio_success_path (env : Env) (s : AgentState) (q sql : String) (rows : DataFrame)
    (hq : s.processed_question = some q)
    (hvn : env.vannaConnected = true)
    (hsql : env.generateSql q = Except.ok sql)
    (hg1 : strIsEmpty sql = false)
    (hg2 : hasSubstr "SELECT" (strUpper sql) = true)
    (hrun : env.runSql sql = Except.ok (some rows)) :
    (rows = [] → portfolio_agent_node env s =
      Except.ok { s with sql_query := some sql, df_results := some (some rows), final_answer := some noDataMsg }) ∧
    (∀ ex, rows ≠ [] → env.generateExplanation sql (dfToString rows) q = Except.ok ex →
      portfolio_agent_node env s =
        Except.ok { s with sql_query := some sql, df_results := some (some rows), final_answer := some ex }) := by
  constructor
  · rintro rfl
    unfold portfolio_agent_node portfolioTryBody
    rw [hq]
    simp [getKey, hvn, hsql, hg1, hg2, hrun]
  · intro ex hne hex
    have hre : rows.isEmpty = false := by
      cases rows with
      | nil => exact absurd rfl hne
      | cons a l => rfl
    unfold portfolio_agent_node portfolioTryBody
    rw [hq]
    simp [getKey, hvn, hsql, hg1, hg2, hrun, hre, hex, hne]

/-- Witness for claim C8 at the concrete scenario-B input. -/
theorem portfolio_success_path_witness :
    portfolio_agent_node envYtd ytdState =
      Except.ok { ytdState with sql_query := some "SELECT ytd_return FROM ai_trading.portfolio_summary", df_results := some (some [["12.4"]]), final_answer := some "Your YTD return is 12.4 percent." } :=
  (portfolio_success_path envYtd ytdState "What\x27s my YTD return?"
    "SELECT ytd_return FROM ai_trading.portfolio_summary" [["12.4"]]
    rfl rfl rfl (by decide) (by decide) rfl).2
    "Your YTD return is 12.4 percent." (by decide) rfl

/-- Claim C9: on the portfolio path, every error occurring after SQL
generation succeeded (guard failure, execution error, explanation
error) leaves the generated `sql_query` — and `df_results` when
execution had succeeded — in the returned state alongside the apology
answer. -/
theorem portfolio_error_path_keeps_artifacts (env : Env) (s : AgentState) (q sql : String)
    (hq : s.processed_question = some q)
    (hvn : env.vannaConnected = true)
    (hsql : env.generateSql q = Except.ok sql) :
    ((strIsEmpty sql = true ∨ hasSubstr "SELECT" (strUpper sql) = false) →
      portfolio_agent_node env s =
        Except.ok { s with sql_query := some sql, final_answer := some portfolioApology }) ∧
    (∀ e, strIsEmpty sql = false → hasSubstr "SELECT" (strUpper sql) = true →
      env.runSql sql = Except.error e →
      portfolio_agent_node env s =
        Except.ok { s with sql_query := some sql, final_answer := some portfolioApology }) ∧
    (∀ rows e, strIsEmpty sql = false → hasSubstr "SELECT" (strUpper sql) = true →
      env.runSql sql = Except.ok (some rows) → rows ≠ [] →
      env.generateExplanation sql (dfToString rows) q = Except.error e →
      portfolio_agent_node env s =
        Except.ok { s with sql_query := some sql, df_results := some (some rows), final_answer := some portfolioApology }) := by
  refine ⟨?_, ?_, ?_⟩
  · intro hbad
    unfold portfolio_agent_node portfolioTryBody
    rw [hq]
    rcases hbad with hx | hx <;> simp [getKey, hvn, hsql, hx]
  · intro e hg1 hg2 hrun
    unfold portfolio_agent_node portfolioTryBody
    rw [hq]
    simp [getKey, hvn, hsql, hg1, hg2, hrun]
  · intro rows e hg1 hg2 hrun hne hex
    have hre : rows.isEmpty = false := by
      cases rows with
      | nil => exact absurd rfl hne
      | cons a l => rfl
    unfold portfolio_agent_node portfolioTryBody
    rw [hq]
    simp [getKey, hvn, hsql, hg1, hg2, hrun, hre, hex, hne]

/-- Witness for claim C9 at a concrete input: the explanation call
raises, yet the returned state carries the generated query and the
executed result rows alongside the apology. -/
theorem portfolio_error_path_keeps_artifacts_witness :
    portfolio_agent_node envExplainDown ytdState =
      Except.ok { ytdState with sql_query := some "SELECT ytd_profit FROM ai_trading.portfolio_summary", df_results := some (some [["8000"]]), final_answer := some portfolioApology } :=
  (portfolio_error_path_keeps_artifacts envExplainDown ytdState "What\x27s my YTD return?"
    "SELECT ytd_profit FROM ai_trading.portfolio_summary" rfl rfl rfl).2.2
    [["8000"]] (PyErr.external "explanation service down")
    (by decide) (by decide) rfl (by decide) rfl

/-- Claim C5: branch selection is a total function of the category;
each of the five category values maps to exactly one handler name that
the conditional path map passes through, every handler has its single
static edge to the finalizer, the finalizer ends the graph, and a run
classified with that category executes exactly the router, that one
handler, and the finalizer. -/
theorem dispatch_total_and_converges :
    ∀ c ∈ fiveCategories,
      decideCategory c ∈ handlerNames ∧
      routerPathMap (decideCategory c) = some (decideCategory c) ∧
      staticEdge (decideCategory c) = some "final_translator" ∧
      staticEdge "final_translator" = some "END" ∧
      runTurnTrace (constEnv c) "hello" [] =
        Except.ok ["router", decideCategory c, "final_translator"] := by decide

/-- Witness for claim C5 at the concrete category portfolio. -/
theorem dispatch_total_and_converges_witness :
    decideCategory "portfolio" ∈ handlerNames ∧
    routerPathMap (decideCategory "portfolio") = some (decideCategory "portfolio") ∧
    staticEdge (decideCategory "portfolio") = some "final_translator" ∧
    staticEdge "final_translator" = some "END" ∧
    runTurnTrace (constEnv "portfolio") "hello" [] =
      Except.ok ["router", decideCategory "portfolio", "final_translator"] :=
  dispatch_total_and_converges "portfolio" (by decide)

/-- A state classified with a label outside the five categories. -/
def gibberishState : AgentState :=
  { original_question := "tell me about my stuff"
    processed_question := some "tell me about my stuff"
    is_arabic := some false
    classification := some "portfolio advice"
    chat_history := []
    sql_query := none
    df_results := none
    final_answer := none }

/-- Claim C6: on any classification string outside the five labels the
dispatcher takes the same branch as on invalid, and the invalid handler
produces the same final answer in both cases. -/
theorem unknown_label_behaves_like_invalid (env : Env) (s : AgentState) (c : String)
    (hc : s.classification = some c) (hnot : c ∉ fiveCategories) :
    decide_next_node s = Except.ok "invalid_query_agent" ∧
    decide_next_node s = decide_next_node { s with classification := some "invalid" } ∧
    Except.map AgentState.final_answer (invalid_query_node env s) =
      Except.map AgentState.final_answer
        (invalid_query_node env { s with classification := some "invalid" }) := by
  simp [fiveCategories] at hnot
  obtain ⟨h1, h2, h3, h4, h5⟩ := hnot
  have hd : decideCategory c = "invalid_query_agent" := by
    unfold decideCategory
    simp [h1, h2, h3, h4]
  have hLHS : decide_next_node s = Except.ok "invalid_query_agent" := by
    unfold decide_next_node
    rw [hc]
    simp [hd]
  have hRHS : decide_next_node { s with classification := some "invalid" } =
      Except.ok "invalid_query_agent" := rfl
  exact ⟨hLHS, hLHS.trans hRHS.symm, rfl⟩

/-- Witness for claim C6 at a concrete unrecognized label. -/
theorem unknown_label_behaves_like_invalid_witness :
    decide_next_node gibberishState = Except.ok "invalid_query_agent" ∧
    decide_next_node gibberishState =
      decide_next_node { gibberishState with classification := some "invalid" } ∧
    Except.map AgentState.final_answer (invalid_query_node (constEnv "x") gibberishState) =
      Except.map AgentState.final_answer
        (invalid_query_node (constEnv "x") { gibberishState with classification := some "invalid" }) :=
  unknown_label_behaves_like_invalid (constEnv "x") gibberishState "portfolio advice" rfl
    (by decide)

/-- A finished turn state whose input was not Arabic. -/
def englishDoneState : AgentState :=
  { original_question := "hello"
    processed_question := some "hello"
    is_arabic := some false
    classification := some "smalltalk"
    chat_history := []
    sql_query := none
    df_results := none
    final_answer := some "All done." }

/-- A finished turn state whose input was Arabic. -/
def arabicDoneState : AgentState :=
  { original_question := "مرحبا"
    processed_question := some "hello"
    is_arabic := some true
    classification := some "smalltalk"
    chat_history := []
    sql_query := none
    df_results := none
    final_answer := some "All done." }

/-- Environment whose LLM returns a fixed Arabic rendering. -/
def envArabic : Env :=
  { llmInvoke := fun _ => Except.ok "النص المترجم"
    vannaConnected := true
    generateSql := fun _ => Except.ok "SELECT 1"
    runSql := fun _ => Except.ok (some [["1"]])
    generateExplanation := fun _ _ _ => Except.ok "fine"
    webSearch := fun _ => Except.ok "fine" }

/-- Claim C7: the finalizer is the identity on `final_answer` when
`is_arabic` is false — the state is returned unchanged and no
language-model call is made (the result does not depend on the model) —
and when the flag is true and `final_answer` is non-empty it replaces
`final_answer` with the back-translation returned by the model. -/
theorem finalizer_identity_or_backtranslation (env env2 : Env) (s : AgentState) :
    (s.is_arabic = some false →
      final_translation_node env s = Except.ok s ∧
      final_translation_node env s = final_translation_node env2 s) ∧
    (∀ a r, s.is_arabic = some true → s.final_answer = some a → a ≠ "" →
      env.llmInvoke (translatePromptAr a) = Except.ok r →
      final_translation_node env s = Except.ok { s with final_answer := some r }) := by
  constructor
  · intro hb
    have key : ∀ e3 : Env, final_translation_node e3 s = Except.ok s := by
      intro e3
      unfold final_translation_node
      rw [hb]
      simp
    exact ⟨key env, (key env).trans (key env2).symm⟩
  · intro a r hb ha hne hr
    have he : strIsEmpty a = false := strIsEmpty_false_of_ne a hne
    unfold final_translation_node
    rw [hb, ha]
    simp [he, hr, hb]

/-- Witness for claim C7 at concrete inputs: identity on a non-Arabic
turn, back-translation on an Arabic turn. -/
theorem finalizer_identity_or_backtranslation_witness :
    (final_translation_node envArabic englishDoneState = Except.ok englishDoneState ∧
     final_translation_node envArabic englishDoneState =
       final_translation_node (constEnv "y") englishDoneState) ∧
    final_translation_node envArabic arabicDoneState =
      Except.ok { arabicDoneState with final_answer := some "النص المترجم" } :=
  ⟨(finalizer_identity_or_backtranslation envArabic (constEnv "y") englishDoneState).1 rfl,
   (finalizer_identity_or_backtranslation envArabic (constEnv "y") arabicDoneState).2
     "All done." "النص المترجم" rfl rfl (by decide) rfl⟩

/-! History non-interference: no node reads or writes `chat_history`,
so every node commutes with replacing the history. -/

lemma router_node_history (env : Env) (s : AgentState) (h : List Message) :
    router_node env (setHistory h s) = Except.map (setHistory h) (router_node env s) := by
  obtain ⟨oq, pq, ia, cl, ch, sq, dfr, fa⟩ := s
  unfold router_node setHistory
  cases hA : strAny oq isArabicChar with
  | false =>
    cases hr : env.llmInvoke (classificationPrompt oq) <;> simp [hA, hr, Except.map]
  | true =>
    cases ht : env.llmInvoke (translatePromptEn oq) with
    | error e => simp [hA, ht, Except.map]
    | ok t =>
      cases hr : env.llmInvoke (classificationPrompt (strStrip t)) <;>
        simp [hA, ht, hr, Except.map]

lemma portfolioTryBody_history (env : Env) (q : String) (s : AgentState) (h : List Message) :
    portfolioTryBody env q (setHistory h s) =
      (setHistory h (portfolioTryBody env q s).1, (portfolioTryBody env q s).2) := by
  obtain ⟨oq, pq, ia, cl, ch, sq, dfr, fa⟩ := s
  unfold portfolioTryBody setHistory
  cases hvn : env.vannaConnected with
  | false => simp [hvn]
  | true =>
    cases hsql : env.generateSql q with
    | error e => simp [hvn, hsql]
    | ok sql =>
      cases hg : (strIsEmpty sql || !hasSubstr "SELECT" (strUpper sql)) with
      | true => simp [hvn, hsql, hg]
      | false =>
        cases hrun : env.runSql sql with
        | error e => simp [hvn, hsql, hg, hrun]
        | ok df =>
          cases df with
          | none => simp [hvn, hsql, hg, hrun]
          | some rows =>
            cases hre : rows.isEmpty with
            | true => simp [hvn, hsql, hg, hrun, hre]
            | false =>
              cases hex : env.generateExplanation sql (dfToString rows) q <;>
                simp [hvn, hsql, hg, hrun, hre, hex]

lemma portfolioTryBody_history_fst (env : Env) (q : String) (s : AgentState) (h : List Message) :
    (portfolioTryBody env q (setHistory h s)).1 = setHistory h (portfolioTryBody env q s).1 := by
  rw [portfolioTryBody_history]

lemma portfolioTryBody_history_snd (env : Env) (q : String) (s : AgentState) (h : List Message) :
    (portfolioTryBody env q (setHistory h s)).2 = (portfolioTryBody env q s).2 := by
  rw [portfolioTryBody_history]

lemma portfolio_node_history (env : Env) (s : AgentState) (h : List Message) :
    portfolio_agent_node env (setHistory h s) =
      Except.map (setHistory h) (portfolio_agent_node env s) := by
  unfold portfolio_agent_node
  have hpq : (setHistory h s).processed_question = s.processed_question := rfl
  rw [hpq]
  cases hq : s.processed_question with
  | none => simp [getKey, Except.map]
  | some q =>
    simp only [getKey_some, ok_bind]
    rw [portfolioTryBody_history_fst, portfolioTryBody_history_snd]
    cases he : (portfolioTryBody env q s).2 with
    | none => simp [Except.map]
    | some err => simp [Except.map, setHistory]

lemma internet_node_history (env : Env) (s : AgentState) (h : List Message) :
    internet_agent_node env (setHistory h s) =
      Except.map (setHistory h) (internet_agent_node env s) := by
  obtain ⟨oq, pq, ia, cl, ch, sq, dfr, fa⟩ := s
  unfold internet_agent_node setHistory
  cases pq with
  | none => simp [getKey, Except.map]
  | some q =>
    cases hw : env.webSearch q <;> simp [getKey, hw, Except.map]

lemma smalltalk_node_history (env : Env) (s : AgentState) (h : List Message) :
    smalltalk_agent_node env (setHistory h s) =
      Except.map (setHistory h) (smalltalk_agent_node env s) := by
  obtain ⟨oq, pq, ia, cl, ch, sq, dfr, fa⟩ := s
  unfold smalltalk_agent_node setHistory
  cases pq with
  | none => simp [getKey, Except.map]
  | some q =>
    cases hr : env.llmInvoke (smalltalkPrompt q) <;> simp [getKey, hr, Except.map]

lemma identity_node_history (env : Env) (s : AgentState) (h : List Message) :
    identity_agent_node env (setHistory h s) =
      Except.map (setHistory h) (identity_agent_node env s) := rfl

lemma invalid_node_history (env : Env) (s : AgentState) (h : List Message) :
    invalid_query_node env (setHistory h s) =
      Except.map (setHistory h) (invalid_query_node env s) := rfl

lemma final_node_history (env : Env) (s : AgentState) (h : List Message) :
    final_translation_node env (setHistory h s) =
      Except.map (setHistory h) (final_translation_node env s) := by
  obtain ⟨oq, pq, ia, cl, ch, sq, dfr, fa⟩ := s
  unfold final_translation_node setHistory
  cases ia with
  | none => simp [getKey, Except.map]
  | some b =>
    cases b with
    | false => simp [getKey, Except.map]
    | true =>
      cases fa with
      | none => simp [getKey, Except.map]
      | some a =>
        cases he : strIsEmpty a with
        | true => simp [getKey, he, Except.map]
        | false =>
          cases hr : env.llmInvoke (translatePromptAr a) <;>
            simp [getKey, he, hr, Except.map]

lemma nextNode_history (name : String) (s : AgentState) (h : List Message) :
    nextNode name (setHistory h s) = nextNode name s := rfl

lemma nodeFn_history (name : String) (f : Env → AgentState → Except PyErr AgentState)
    (hf : nodeFn name = some f) (env : Env) (s : AgentState) (h : List Message) :
    f env (setHistory h s) = Except.map (setHistory h) (f env s) := by
  unfold nodeFn at hf
  cases h1 : (name == "router") with
  | true =>
    simp only [h1, if_true] at hf
    cases hf
    exact router_node_history env s h
  | false =>
    simp only [h1, Bool.false_eq_true, if_false] at hf
    cases h2 : (name == "portfolio_agent") with
    | true =>
      simp only [h2, if_true] at hf
      cases hf
      exact portfolio_node_history env s h
    | false =>
      simp only [h2, Bool.false_eq_true, if_false] at hf
      cases h3 : (name == "internet_agent") with
      | true =>
        simp only [h3, if_true] at hf
        cases hf
        exact internet_node_history env s h
      | false =>
        simp only [h3, Bool.false_eq_true, if_false] at hf
        cases h4 : (name == "smalltalk_agent") with
        | true =>
          simp only [h4, if_true] at hf
          cases hf
          exact smalltalk_node_history env s h
        | false =>
          simp only [h4, Bool.false_eq_true, if_false] at hf
          cases h5 : (name == "identity_agent") with
          | true =>
            simp only [h5, if_true] at hf
            cases hf
            exact identity_node_history env s h
          | false =>
            simp only [h5, Bool.false_eq_true, if_false] at hf
            cases h6 : (name == "invalid_query_agent") with
            | true =>
              simp only [h6, if_true] at hf
              cases hf
              exact invalid_node_history env s h
            | false =>
              simp only [h6, Bool.false_eq_true, if_false] at hf
              cases h7 : (name == "final_translator") with
              | true =>
                simp only [h7, if_true] at hf
                cases hf
                exact final_node_history env s h
              | false =>
                simp only [h7, Bool.false_eq_true, if_false] at hf
                cases hf

lemma runFrom_history (env : Env) (h : List Message) :
    ∀ (n : Nat) (name : String) (s : AgentState) (tr : List String),
      runFrom env n name (setHistory h s) tr =
        Except.map (fun pr => (setHistory h pr.1, pr.2)) (runFrom env n name s tr) := by
  intro n
  induction n with
  | zero => intro name s tr; rfl
  | succ n ih =>
    intro name s tr
    rw [runFrom_succ, runFrom_succ]
    cases hend : (name == "END") with
    | true => simp [hend, Except.map]
    | false =>
      simp only [hend, Bool.false_eq_true, if_false]
      cases hfn : nodeFn name with
      | none => simp [Except.map]
      | some f =>
        dsimp only
        rw [nodeFn_history name f hfn env s h]
        cases hres : f env s with
        | error e => simp [hres, Except.map]
        | ok s1 =>
          simp only [hres, Except.map, ok_bind]
          rw [nextNode_history]
          cases hnn : nextNode name s1 with
          | error e => simp [Except.map]
          | ok nxt =>
            simp only [ok_bind]
            exact ih nxt s1 (tr ++ [name])

/-- Claim C10: the routing core never reads the prior conversation
history — two runs with the same question and the same collaborators
but different `chat_history` inputs produce identical `final_answer`,
`sql_query` and `df_results` (also in whether and how they fail). -/
theorem history_no_influence (env : Env) (q : String) (h1 h2 : List Message) :
    Except.map projOut (runTurn env q h1) = Except.map projOut (runTurn env q h2) := by
  have key : ∀ h : List Message,
      Except.map projOut (runTurn env q h) = Except.map projOut (runTurn env q []) := by
    intro h
    have hinit : initState q h = setHistory h (initState q []) := rfl
    unfold runTurn
    rw [hinit, runFrom_history]
    cases runFrom env 10 "router" (initState q []) [] with
    | error e => simp [Except.map]
    | ok pr => simp [Except.map, projOut, setHistory]
  rw [key h1, key h2]
